import Mathlib

/-!
Verification of the phosphor-power regulators core: the exception-chain
flattening utilities, the rule-execution context, the CompareVPD action,
and the JSON configuration file parser.

Functions found in `src/phosphor-regulators/src/exception_utils.cpp` are
translated directly from that source.  The execution context
(`ActionEnvironment`), the `CompareVPDAction`, and the config file parser
are present in the repository only through their declarations and tests,
so they are modelled from the specification (each such definition carries
a doc comment starting `Modelled from the spec:`).
-/

set_option autoImplicit false

namespace Regulators

/-! ## Exception chains (from exception_utils.cpp) -/

/--
One C++ exception as used by the regulators error-chain utilities: every
error value carries a message (`what()`) and is either a plain exception
or a `std::nested_exception` wrapping the lower-level cause that
triggered it.
-/
inductive CppException where
  | simple (whatMsg : String)
  | nestedErr (whatMsg : String) (inner : CppException)
deriving DecidableEq

/-- Accessor for the `what()` message of an exception. -/
def CppException.what : CppException → String
  | .simple w => w
  | .nestedErr w _ => w

/--
Translation of `internal::getMessages` from `exception_utils.cpp`:
if the exception is nested, first collect the messages of the inner
exception(s) into the accumulator, then append this exception's message.
-/
def getMessagesInternal : CppException → List String → List String
  | .simple w, messages => messages ++ [w]
  | .nestedErr w inner, messages => getMessagesInternal inner messages ++ [w]

/-- Translation of `getMessages` from `exception_utils.cpp`. -/
def getMessages (e : CppException) : List String :=
  getMessagesInternal e []

/--
Translation of `internal::getExceptions` from `exception_utils.cpp`.
The `Option` models the possibly-null `std::exception_ptr`: a null
pointer contributes nothing; otherwise the inner exception(s) are
collected first and this exception is appended after them.
-/
def getExceptionsInternal : Option CppException → List CppException → List CppException
  | none, exceptions => exceptions
  | some (.simple w), exceptions => exceptions ++ [.simple w]
  | some (.nestedErr w inner), exceptions =>
      getExceptionsInternal (some inner) exceptions ++ [.nestedErr w inner]

/-- Translation of `getExceptions` from `exception_utils.cpp`. -/
def getExceptions (eptr : Option CppException) : List CppException :=
  getExceptionsInternal eptr []

/--
Reference order: the chain of an exception listed innermost (deepest cause) first and
outermost error last.  This is the reference order stated by the spec
for the flattening utilities.
-/
def exceptionChain : CppException → List CppException
  | .simple w => [.simple w]
  | .nestedErr w inner => exceptionChain inner ++ [.nestedErr w inner]

theorem getMessagesInternal_eq (e : CppException) (acc : List String) :
    getMessagesInternal e acc = acc ++ getMessagesInternal e [] := by
  induction e generalizing acc with
  | simple w => simp [getMessagesInternal]
  | nestedErr w inner ih =>
      simp only [getMessagesInternal]
      rw [ih acc, ih ([] : List String)]
      simp

theorem getExceptionsInternal_eq (e : CppException) (acc : List CppException) :
    getExceptionsInternal (some e) acc = acc ++ getExceptionsInternal (some e) [] := by
  induction e generalizing acc with
  | simple w => simp [getExceptionsInternal]
  | nestedErr w inner ih =>
      simp only [getExceptionsInternal]
      rw [ih acc, ih ([] : List CppException)]
      simp

theorem getMessages_eq_chain (e : CppException) :
    getMessages e = (exceptionChain e).map CppException.what := by
  induction e with
  | simple w => simp [getMessages, getMessagesInternal, exceptionChain, CppException.what]
  | nestedErr w inner ih =>
      simp only [getMessages, getMessagesInternal, exceptionChain] at *
      rw [getMessagesInternal_eq inner ([] : List String)]
      simp [ih, CppException.what]

theorem getExceptions_eq_chain (e : CppException) :
    getExceptions (some e) = exceptionChain e := by
  induction e with
  | simple w => simp [getExceptions, getExceptionsInternal, exceptionChain]
  | nestedErr w inner ih =>
      simp only [getExceptions, getExceptionsInternal, exceptionChain] at *
      rw [getExceptionsInternal_eq inner ([] : List CppException)]
      simp [ih]

/--
Claim C3: for every nested-exception chain, `getMessages` returns one message
per exception in the chain, ordered innermost (deepest cause) first and
outermost error last, and `getExceptions` returns the exceptions
themselves in the same innermost-first order.
-/
theorem getMessages_getExceptions_innermost_first (e : CppException) :
    getMessages e = (exceptionChain e).map CppException.what ∧
    getExceptions (some e) = exceptionChain e ∧
    (getMessages e).length = (exceptionChain e).length := by
  refine ⟨getMessages_eq_chain e, getExceptions_eq_chain e, ?_⟩
  rw [getMessages_eq_chain e, List.length_map]

/-! ## Execution context (ActionEnvironment) -/

/--
Modelled from the spec: the phase-fault kinds observed during execution,
a failure in one power phase (`n`) or a redundant phase (`n_plus_1`).
-/
inductive PhaseFaultType where
  | n
  | n_plus_1
deriving DecidableEq

/--
Modelled from the spec: the external-services collaborator.  Only the
capability the verified claims exercise is modelled: VPD/keyword lookup
returning a string, which may fail with a lower-level error message.
-/
structure Services where
  getVPDValue : String → String → Except String String

/--
Modelled from the spec: the ID registry, three parallel id-to-entity
mappings (device, rule, rail) over the topology.  The claims below only
require the registry to exist as constructor input, so the entities are
identified by their ids.
-/
structure IDMap where
  deviceIDs : List String
  ruleIDs : List String
  railIDs : List String

/--
Modelled from the spec: the fixed small maximum on the rule-call depth
counter that bounds cyclic or deeply-nested rule graphs.
-/
def maxRuleDepth : Nat := 30

/--
Modelled from the spec: the per-run execution context.  Holds the
registry reference, the services reference, the mutable current device
id, the rule-call depth counter, a deduplicating set of observed
phase-fault kinds, an ordered additional-error-data map, and an optional
last-computed voltage.
-/
structure ActionEnvironment where
  idMap : IDMap
  services : Services
  deviceID : String
  ruleDepth : Nat
  phaseFaults : List PhaseFaultType
  additionalErrorData : List (String × String)
  volts : Option Rat

/--
Modelled from the spec: the `ActionEnvironment` constructor, taking the
registry, the initial device id, and the services collaborator; all
mutable state starts out empty.
-/
def ActionEnvironment.make (idMap : IDMap) (deviceID : String) (services : Services) :
    ActionEnvironment :=
  { idMap := idMap
    services := services
    deviceID := deviceID
    ruleDepth := 0
    phaseFaults := []
    additionalErrorData := []
    volts := none }

def ActionEnvironment.getDeviceID (env : ActionEnvironment) : String :=
  env.deviceID

def ActionEnvironment.getRuleDepth (env : ActionEnvironment) : Nat :=
  env.ruleDepth

def ActionEnvironment.getPhaseFaults (env : ActionEnvironment) : List PhaseFaultType :=
  env.phaseFaults

def ActionEnvironment.getAdditionalErrorData (env : ActionEnvironment) : List (String × String) :=
  env.additionalErrorData

def ActionEnvironment.getVolts (env : ActionEnvironment) : Option Rat :=
  env.volts

/--
Modelled from the spec: `incrementRuleDepth(ruleId)` increments the
depth counter and then fails with
`Maximum rule depth exceeded by rule <ruleId>.` once the counter exceeds
the fixed maximum; the counter remains incremented on this failure.  The
returned pair is the updated context together with the call's outcome.
-/
def ActionEnvironment.incrementRuleDepth (env : ActionEnvironment) (ruleID : String) :
    ActionEnvironment × Except String Unit :=
  let env' := { env with ruleDepth := env.ruleDepth + 1 }
  if maxRuleDepth < env'.ruleDepth then
    (env', Except.error ("Maximum rule depth exceeded by rule " ++ ruleID ++ "."))
  else
    (env', Except.ok ())

/--
Modelled from the spec: `decrementRuleDepth()` decrements the depth
counter, floored at zero.
-/
def ActionEnvironment.decrementRuleDepth (env : ActionEnvironment) : ActionEnvironment :=
  { env with ruleDepth := env.ruleDepth - 1 }

/-- Iterated `incrementRuleDepth`: `n` successive calls, keeping only the state. -/
def iterIncrementRuleDepth (ruleID : String) (env : ActionEnvironment) : Nat → ActionEnvironment
  | 0 => env
  | Nat.succ n => ((iterIncrementRuleDepth ruleID env n).incrementRuleDepth ruleID).1

theorem iterIncrementRuleDepth_ruleDepth (ruleID : String) (env : ActionEnvironment) (n : Nat) :
    (iterIncrementRuleDepth ruleID env n).ruleDepth = env.ruleDepth + n := by
  induction n with
  | zero => rfl
  | succ n ih =>
      have h1 : (iterIncrementRuleDepth ruleID env (n + 1)).ruleDepth
          = (iterIncrementRuleDepth ruleID env n).ruleDepth + 1 := by
        simp only [iterIncrementRuleDepth, ActionEnvironment.incrementRuleDepth]
        split <;> rfl
      omega

/--
Claim C1: starting from a freshly constructed execution context (rule depth
0), `incrementRuleDepth` succeeds exactly `maxRuleDepth` times, leaving
the depth equal to `maxRuleDepth`; the `(maxRuleDepth+1)`-th call fails
with the exact message `Maximum rule depth exceeded by rule <id>.`; and
`decrementRuleDepth` at depth 0 leaves the depth at 0.
-/
theorem ruleDepth_bounded (idMap : IDMap) (services : Services) (dev ruleID : String) :
    (∀ n, n < maxRuleDepth →
      ((iterIncrementRuleDepth ruleID (ActionEnvironment.make idMap dev services) n).incrementRuleDepth
          ruleID).2 = Except.ok () ∧
      (iterIncrementRuleDepth ruleID (ActionEnvironment.make idMap dev services) (n + 1)).ruleDepth
        = n + 1) ∧
    (iterIncrementRuleDepth ruleID (ActionEnvironment.make idMap dev services)
        maxRuleDepth).ruleDepth = maxRuleDepth ∧
    ((iterIncrementRuleDepth ruleID (ActionEnvironment.make idMap dev services)
        maxRuleDepth).incrementRuleDepth ruleID).2
      = Except.error ("Maximum rule depth exceeded by rule " ++ ruleID ++ ".") ∧
    ((ActionEnvironment.make idMap dev services).decrementRuleDepth).ruleDepth = 0 := by
  have hbase : (ActionEnvironment.make idMap dev services).ruleDepth = 0 := rfl
  refine ⟨?_, ?_, ?_, rfl⟩
  · intro n hn
    have hdepth := iterIncrementRuleDepth_ruleDepth ruleID
      (ActionEnvironment.make idMap dev services) n
    rw [hbase, Nat.zero_add] at hdepth
    constructor
    · simp only [ActionEnvironment.incrementRuleDepth, hdepth]
      have : ¬ maxRuleDepth < n + 1 := by omega
      simp [this]
    · have hdepth' := iterIncrementRuleDepth_ruleDepth ruleID
        (ActionEnvironment.make idMap dev services) (n + 1)
      rw [hbase, Nat.zero_add] at hdepth'
      exact hdepth'
  · have := iterIncrementRuleDepth_ruleDepth ruleID
      (ActionEnvironment.make idMap dev services) maxRuleDepth
    rw [hbase, Nat.zero_add] at this
    exact this
  · have hdepth := iterIncrementRuleDepth_ruleDepth ruleID
      (ActionEnvironment.make idMap dev services) maxRuleDepth
    rw [hbase, Nat.zero_add] at hdepth
    simp [ActionEnvironment.incrementRuleDepth, hdepth]

/--
Claim C4: when `incrementRuleDepth(ruleId)` fails because the counter would
exceed the fixed maximum, the call still increments the counter before
failing: the state change is not rolled back on the error.
-/
theorem incrementRuleDepth_keeps_increment (env : ActionEnvironment) (ruleID : String)
    (h : maxRuleDepth ≤ env.ruleDepth) :
    (env.incrementRuleDepth ruleID).2
      = Except.error ("Maximum rule depth exceeded by rule " ++ ruleID ++ ".") ∧
    (env.incrementRuleDepth ruleID).1.ruleDepth = env.ruleDepth + 1 := by
  have hlt : maxRuleDepth < env.ruleDepth + 1 := Nat.lt_succ_of_le h
  simp [ActionEnvironment.incrementRuleDepth, hlt]

/-- Sample registry for concrete witnesses. -/
def sampleIDMap : IDMap :=
  { deviceIDs := ["regulator1"], ruleIDs := ["set_voltage_rule"], railIDs := [] }

/-- Sample services for concrete witnesses: VPD lookups all fail. -/
def sampleServices : Services :=
  { getVPDValue := fun _ _ => Except.error "D-Bus error: Invalid object path" }

/-- Witness for C1 at a concrete registry, device id, and rule id. -/
theorem ruleDepth_bounded_witness :
    ((iterIncrementRuleDepth "set_voltage_rule"
        (ActionEnvironment.make sampleIDMap "regulator1" sampleServices)
        maxRuleDepth).incrementRuleDepth "set_voltage_rule").2
      = Except.error ("Maximum rule depth exceeded by rule " ++ "set_voltage_rule" ++ ".") ∧
    ((ActionEnvironment.make sampleIDMap "regulator1" sampleServices).decrementRuleDepth).ruleDepth
      = 0 :=
  ⟨(ruleDepth_bounded sampleIDMap sampleServices "regulator1" "set_voltage_rule").2.2.1,
   (ruleDepth_bounded sampleIDMap sampleServices "regulator1" "set_voltage_rule").2.2.2⟩

/-- Witness for C4 at a concrete context sitting at the maximum depth. -/
theorem incrementRuleDepth_keeps_increment_witness :
    maxRuleDepth ≤ (iterIncrementRuleDepth "set_voltage_rule"
        (ActionEnvironment.make sampleIDMap "regulator1" sampleServices)
        maxRuleDepth).ruleDepth ∧
    ((iterIncrementRuleDepth "set_voltage_rule"
        (ActionEnvironment.make sampleIDMap "regulator1" sampleServices)
        maxRuleDepth).incrementRuleDepth "set_voltage_rule").1.ruleDepth
      = (iterIncrementRuleDepth "set_voltage_rule"
        (ActionEnvironment.make sampleIDMap "regulator1" sampleServices)
        maxRuleDepth).ruleDepth + 1 := by
  have hd : (iterIncrementRuleDepth "set_voltage_rule"
      (ActionEnvironment.make sampleIDMap "regulator1" sampleServices)
      maxRuleDepth).ruleDepth = maxRuleDepth := by
    have := iterIncrementRuleDepth_ruleDepth "set_voltage_rule"
      (ActionEnvironment.make sampleIDMap "regulator1" sampleServices) maxRuleDepth
    simpa using this
  have hle : maxRuleDepth ≤ (iterIncrementRuleDepth "set_voltage_rule"
      (ActionEnvironment.make sampleIDMap "regulator1" sampleServices)
      maxRuleDepth).ruleDepth := le_of_eq hd.symm
  exact ⟨hle, (incrementRuleDepth_keeps_increment _ "set_voltage_rule" hle).2⟩

/--
Claim C10: a newly constructed execution context starts with rule depth 0, an
empty phase-fault set, an empty additional-error-data map, no stored
voltage value, and `getDeviceID` equal to the device id passed to the
constructor.
-/
theorem make_initial_state (idMap : IDMap) (dev : String) (services : Services) :
    (ActionEnvironment.make idMap dev services).getRuleDepth = 0 ∧
    (ActionEnvironment.make idMap dev services).getPhaseFaults = [] ∧
    (ActionEnvironment.make idMap dev services).getAdditionalErrorData = [] ∧
    (ActionEnvironment.make idMap dev services).getVolts = none ∧
    (ActionEnvironment.make idMap dev services).getDeviceID = dev :=
  ⟨rfl, rfl, rfl, rfl, rfl⟩

/-! ## CompareVPD action -/

/--
Modelled from the spec: the CompareVPD action's immutable parameters, a
FRU inventory path, a VPD keyword, and the expected value.
-/
structure CompareVPDAction where
  fru : String
  keyword : String
  value : String
deriving DecidableEq

/--
Modelled from the spec: the action's descriptive text, as pinned down by
the repository's tests:
`compare_vpd: { fru: <fru>, keyword: <keyword>, value: <value> }`.
-/
def CompareVPDAction.toString (action : CompareVPDAction) : String :=
  "compare_vpd: \x7b fru: " ++ action.fru ++ ", keyword: " ++ action.keyword ++
    ", value: " ++ action.value ++ " \x7d"

/--
Modelled from the spec: `CompareVPDAction.execute` retrieves a value
from the services collaborator by (fru, keyword) and returns
`actual == expected`, an exact string match including the empty-string
case; a services failure is caught and re-signalled as an
action-execution error carrying the action's descriptive text and
nesting the original cause.
-/
def CompareVPDAction.execute (action : CompareVPDAction) (env : ActionEnvironment) :
    Except CppException Bool :=
  match env.services.getVPDValue action.fru action.keyword with
  | Except.ok actual => Except.ok (actual == action.value)
  | Except.error msg =>
      Except.error
        (CppException.nestedErr ("ActionError: " ++ action.toString) (CppException.simple msg))

/--
Claim C6: whenever the services VPD lookup for the action's (fru, keyword)
returns a string `v`, `execute` returns true exactly when `v` equals the
configured expected value as an exact, case-sensitive string comparison
(including the empty-string cases), and returns false otherwise.
-/
theorem compareVPD_execute_eq (action : CompareVPDAction) (env : ActionEnvironment) (v : String)
    (h : env.services.getVPDValue action.fru action.keyword = Except.ok v) :
    (action.execute env = Except.ok true ↔ v = action.value) ∧
    (action.execute env = Except.ok false ↔ v ≠ action.value) := by
  constructor
  · simp [CompareVPDAction.execute, h]
  · simp [CompareVPDAction.execute, h]

/-- Services used by the C6 witness: the VPD value of every keyword is the empty string. -/
def emptyVPDServices : Services :=
  { getVPDValue := fun _ _ => Except.ok "" }

/--
Witness for C6: with the services returning the empty string and the
expected value also empty, `execute` returns true.
-/
theorem compareVPD_execute_eq_witness :
    (emptyVPDServices.getVPDValue "/xyz/openbmc_project/inventory/system" "Model"
        = Except.ok "") ∧
    (CompareVPDAction.mk "/xyz/openbmc_project/inventory/system" "Model" "").execute
        (ActionEnvironment.make sampleIDMap "" emptyVPDServices) = Except.ok true := by
  have h := compareVPD_execute_eq
    (CompareVPDAction.mk "/xyz/openbmc_project/inventory/system" "Model" "")
    (ActionEnvironment.make sampleIDMap "" emptyVPDServices) "" rfl
  exact ⟨rfl, h.1.mpr rfl⟩

/-- Concrete CompareVPD action of the services-failure scenario. -/
def cexAction : CompareVPDAction :=
  { fru := "/xyz/openbmc_project/inventory/system", keyword := "Model", value := "ABCD" }

/-- Concrete context of the services-failure scenario: VPD lookup throws. -/
def cexEnv : ActionEnvironment :=
  ActionEnvironment.make sampleIDMap "" sampleServices

/-- Concrete action-execution error produced in the services-failure scenario. -/
def cexError : CppException :=
  CppException.nestedErr
    ("ActionError: compare_vpd: \x7b fru: /xyz/openbmc_project/inventory/system, keyword: Model, value: ABCD \x7d")
    (CppException.simple "D-Bus error: Invalid object path")

/--
Counterexample to C2 as stated: in the services-failure scenario,
flattening the resulting action-execution error yields exactly two
messages, but the original cause's message comes first and the action
error's own message second — not the claimed action-error-first order.
-/
theorem compareVPD_flatten_order_cex :
    cexAction.execute cexEnv = Except.error cexError ∧
    getMessages cexError
      = ["D-Bus error: Invalid object path",
         "ActionError: compare_vpd: \x7b fru: /xyz/openbmc_project/inventory/system, keyword: Model, value: ABCD \x7d"] ∧
    getMessages cexError
      ≠ ["ActionError: compare_vpd: \x7b fru: /xyz/openbmc_project/inventory/system, keyword: Model, value: ABCD \x7d",
         "D-Bus error: Invalid object path"] := by
  refine ⟨rfl, rfl, ?_⟩
  decide

/--
Claim C2 as amended: when a services failure with message `msg` occurs inside
a CompareVPD execution, the resulting action-execution error flattens
(via `getMessages`) to exactly two entries, the original cause's message
first and the action error's own message second.
-/
theorem compareVPD_flatten_two_messages (action : CompareVPDAction) (env : ActionEnvironment)
    (msg : String) (h : env.services.getVPDValue action.fru action.keyword = Except.error msg) :
    ∃ err, action.execute env = Except.error err ∧
      getMessages err = [msg, "ActionError: " ++ action.toString] ∧
      (getMessages err).length = 2 := by
  refine ⟨CppException.nestedErr ("ActionError: " ++ action.toString) (CppException.simple msg),
    ?_, rfl, rfl⟩
  simp [CompareVPDAction.execute, h]

/-- Witness for the amended C2 at the concrete scenario inputs. -/
theorem compareVPD_flatten_two_messages_witness :
    cexEnv.services.getVPDValue cexAction.fru cexAction.keyword
      = Except.error "D-Bus error: Invalid object path" ∧
    ∃ err, cexAction.execute cexEnv = Except.error err ∧
      getMessages err
        = ["D-Bus error: Invalid object path", "ActionError: " ++ cexAction.toString] ∧
      (getMessages err).length = 2 :=
  ⟨rfl, compareVPD_flatten_two_messages cexAction cexEnv "D-Bus error: Invalid object path" rfl⟩

/-! ## JSON values and value parsers -/

/--
Modelled from the spec: a parsed JSON document.  Numbers are carried as
rationals, which is enough to distinguish integral from non-integral
values as the value parsers require; objects are ordered key/value
member lists.
-/
inductive Json where
  | null
  | boolean (b : Bool)
  | num (value : Rat)
  | str (value : String)
  | arr (elements : List Json)
  | obj (members : List (String × Json))

/-- Lookup of an object property by name (first match). -/
def getMemberProperty (members : List (String × Json)) (name : String) : Option Json :=
  members.lookup name

/-- True when the object has a property with the given name. -/
def containsProperty (members : List (String × Json)) (name : String) : Bool :=
  (getMemberProperty members name).isSome

/--
Modelled from the spec: object type guard, failing with
`Element is not an object`.
-/
def verifyIsObject : Json → Except String (List (String × Json))
  | .obj members => Except.ok members
  | _ => Except.error "Element is not an object"

/--
Modelled from the spec: array type guard, failing with
`Element is not an array`.
-/
def verifyIsArray : Json → Except String (List Json)
  | .arr elements => Except.ok elements
  | _ => Except.error "Element is not an array"

/--
Modelled from the spec: fetch a required object property, failing with
`Required property missing: <name>` when absent.
-/
def getRequiredProperty (element : Json) (name : String) : Except String Json :=
  match element with
  | .obj members =>
      match getMemberProperty members name with
      | some value => Except.ok value
      | none => Except.error ("Required property missing: " ++ name)
  | _ => Except.error ("Required property missing: " ++ name)

/--
Modelled from the spec: unknown-key enforcement.  Every object-level
parser counts how many of its own keys it consumed and compares against
the element's total key count, failing with
`Element contains an invalid property` on mismatch.
-/
def verifyPropertyCount (members : List (String × Json)) (count : Nat) : Except String Unit :=
  if members.length = count then Except.ok () else Except.error "Element contains an invalid property"

/--
Modelled from the spec: boolean parser, failing with
`Element is not a boolean`.
-/
def parseBoolean : Json → Except String Bool
  | .boolean b => Except.ok b
  | _ => Except.error "Element is not a boolean"

/--
Modelled from the spec: number/double parser, failing with
`Element is not a number`.
-/
def parseDouble : Json → Except String Rat
  | .num value => Except.ok value
  | _ => Except.error "Element is not a number"

/--
Modelled from the spec: string parser with an `allowEmpty` switch
rejecting the empty string by default
(`Element contains an empty string`); non-strings fail with
`Element is not a string`.
-/
def parseString (element : Json) (allowEmpty : Bool) : Except String String :=
  match element with
  | .str value =>
      if value.isEmpty && !allowEmpty then Except.error "Element contains an empty string"
      else Except.ok value
  | _ => Except.error "Element is not a string"

/--
Modelled from the spec: 8-bit signed integer parser with range check
(`Element is not an integer` if not integral,
`Element is not an 8-bit signed integer` if out of range).
-/
def parseInt8 (element : Json) : Except String Int :=
  match element with
  | .num value =>
      if value.den ≠ 1 then Except.error "Element is not an integer"
      else if value.num < -128 ∨ 127 < value.num then
        Except.error "Element is not an 8-bit signed integer"
      else Except.ok value.num
  | _ => Except.error "Element is not an integer"

/--
Modelled from the spec: 8-bit unsigned integer parser with range check
(`Element is not an integer` if not integral,
`Element is not an 8-bit unsigned integer` if out of range).
-/
def parseUint8 (element : Json) : Except String Nat :=
  match element with
  | .num value =>
      if value.den ≠ 1 then Except.error "Element is not an integer"
      else if value.num < 0 ∨ 255 < value.num then
        Except.error "Element is not an 8-bit unsigned integer"
      else Except.ok value.num.toNat
  | _ => Except.error "Element is not an integer"

/--
Modelled from the spec: unsigned integer parser (integral value ≥ 0),
failing with `Element is not an unsigned integer`.
-/
def parseUnsignedInteger (element : Json) : Except String Nat :=
  match element with
  | .num value =>
      if value.den = 1 ∧ 0 ≤ value.num then Except.ok value.num.toNat
      else Except.error "Element is not an unsigned integer"
  | _ => Except.error "Element is not an unsigned integer"

/--
Modelled from the spec: bit position parser, an integer in [0,7]
(`Element is not an integer` if not integral,
`Element is not a bit position` if out of range).
-/
def parseBitPosition (element : Json) : Except String Nat :=
  match element with
  | .num value =>
      if value.den ≠ 1 then Except.error "Element is not an integer"
      else if value.num < 0 ∨ 7 < value.num then Except.error "Element is not a bit position"
      else Except.ok value.num.toNat
  | _ => Except.error "Element is not an integer"

/--
Modelled from the spec: bit value parser, an integer in [0,1]
(`Element is not an integer` if not integral,
`Element is not a bit value` if out of range).
-/
def parseBitValue (element : Json) : Except String Nat :=
  match element with
  | .num value =>
      if value.den ≠ 1 then Except.error "Element is not an integer"
      else if value.num < 0 ∨ 1 < value.num then Except.error "Element is not a bit value"
      else Except.ok value.num.toNat
  | _ => Except.error "Element is not an integer"

/-- True for an ASCII hexadecimal digit of either case. -/
def isHexDigit (c : Char) : Bool :=
  ('0' ≤ c && c ≤ '9') || ('a' ≤ c && c ≤ 'f') || ('A' ≤ c && c ≤ 'F')

/-- Numeric value of one hexadecimal digit. -/
def hexDigitValue (c : Char) : Nat :=
  if '0' ≤ c && c ≤ '9' then c.toNat - '0'.toNat
  else if 'a' ≤ c && c ≤ 'f' then c.toNat - 'a'.toNat + 10
  else c.toNat - 'A'.toNat + 10

/-- Numeric value of a big-endian list of hexadecimal digits. -/
def hexDigitsValue (digits : List Char) : Nat :=
  digits.foldl (fun acc c => 16 * acc + hexDigitValue c) 0

/--
Modelled from the spec: hex byte parser — a string exactly `0x` plus one
or two hex digits, with the lowercase `0x` mandatory and the digits in
either case; every string of any other shape fails with
`Element is not hexadecimal string`.
-/
def parseHexByte (element : Json) : Except String Nat :=
  match parseString element true with
  | Except.error m => Except.error m
  | Except.ok value =>
      if value.toList.take 2 = ['0', 'x'] ∧ 1 ≤ (value.toList.drop 2).length ∧
          (value.toList.drop 2).length ≤ 2 ∧ (value.toList.drop 2).all isHexDigit then
        Except.ok (hexDigitsValue (value.toList.drop 2))
      else Except.error "Element is not hexadecimal string"

/-- Element-by-element parsing of a JSON array, stopping at the first failure. -/
def parseJsonList {α : Type} (f : Json → Except String α) : List Json → Except String (List α)
  | [] => Except.ok []
  | e :: rest =>
      match f e with
      | Except.error m => Except.error m
      | Except.ok a =>
          match parseJsonList f rest with
          | Except.error m => Except.error m
          | Except.ok as => Except.ok (a :: as)

/--
Modelled from the spec: hex byte array parser (element-wise hex bytes).
-/
def parseHexByteArray (element : Json) : Except String (List Nat) :=
  match verifyIsArray element with
  | Except.error m => Except.error m
  | Except.ok elements => parseJsonList parseHexByte elements

/-! ## Topology and action parsers -/

/-- Modelled from the spec: the VOUT_COMMAND data format (only `linear` is recognized). -/
inductive VoutDataFormat where
  | linear
deriving DecidableEq

/--
Modelled from the spec: the closed variant set of parsed actions
recognized by this revision's config file parser.
-/
inductive Action where
  | i2cWriteBit (register : Nat) (position : Nat) (value : Nat)
  | i2cWriteByte (register : Nat) (value : Nat) (mask : Nat)
  | i2cWriteBytes (register : Nat) (values : List Nat) (masks : List Nat)
  | pmbusWriteVoutCommand (volts : Option Rat) (format : VoutDataFormat)
      (exponent : Option Int) (isVerified : Bool)
  | runRule (ruleID : String)
deriving DecidableEq

/-- Modelled from the spec: a Configuration wraps one action sequence plus an optional target voltage. -/
structure Configuration where
  volts : Option Rat
  actions : List Action
deriving DecidableEq

/-- Modelled from the spec: a SensorMonitoring wraps one action sequence. -/
structure SensorMonitoring where
  actions : List Action
deriving DecidableEq

/-- Modelled from the spec: a Rail has an id and optional Configuration / SensorMonitoring. -/
structure Rail where
  id : String
  configuration : Option Configuration
  sensorMonitoring : Option SensorMonitoring
deriving DecidableEq

/-- Modelled from the spec: an I2C interface, a bus number and a device address. -/
structure I2CInterfaceInfo where
  bus : Nat
  address : Nat
deriving DecidableEq

/-- Modelled from the spec: a Device of the topology. -/
structure Device where
  id : String
  isRegulator : Bool
  fru : String
  i2cInterface : I2CInterfaceInfo
  configuration : Option Configuration
  rails : List Rail
deriving DecidableEq

/-- Modelled from the spec: a Chassis, a positive integer identifier plus owned Devices. -/
structure Chassis where
  number : Nat
  devices : List Device
deriving DecidableEq

/-- Modelled from the spec: a Rule, a unique non-empty id plus an ordered action sequence. -/
structure Rule where
  id : String
  actions : List Action
deriving DecidableEq

/-- Parse an optional object property with the given value parser. -/
def parseOptionalProperty {α : Type} (members : List (String × Json)) (name : String)
    (f : Json → Except String α) : Except String (Option α) :=
  match getMemberProperty members name with
  | none => Except.ok none
  | some value =>
      match f value with
      | Except.error m => Except.error m
      | Except.ok a => Except.ok (some a)

/-- Modelled from the spec: the run_rule action parser, a bare rule-id string. -/
def parseRunRule (element : Json) : Except String Action :=
  match parseString element false with
  | Except.error m => Except.error m
  | Except.ok ruleID => Except.ok (Action.runRule ruleID)

/--
Modelled from the spec: the i2c_write_bit action parser
(`register` hex byte, `position` bit position, `value` bit value).
-/
def parseI2CWriteBit (element : Json) : Except String Action :=
  match verifyIsObject element with
  | Except.error m => Except.error m
  | Except.ok members =>
      match getRequiredProperty element "register" with
      | Except.error m => Except.error m
      | Except.ok registerElement =>
          match parseHexByte registerElement with
          | Except.error m => Except.error m
          | Except.ok register =>
              match getRequiredProperty element "position" with
              | Except.error m => Except.error m
              | Except.ok positionElement =>
                  match parseBitPosition positionElement with
                  | Except.error m => Except.error m
                  | Except.ok position =>
                      match getRequiredProperty element "value" with
                      | Except.error m => Except.error m
                      | Except.ok valueElement =>
                          match parseBitValue valueElement with
                          | Except.error m => Except.error m
                          | Except.ok value =>
                              match verifyPropertyCount members 3 with
                              | Except.error m => Except.error m
                              | Except.ok _ =>
                                  Except.ok (Action.i2cWriteBit register position value)

/--
Modelled from the spec: the i2c_write_byte action parser
(`register` hex byte, `value` hex byte, optional `mask` hex byte
defaulting to 0xFF).
-/
def parseI2CWriteByte (element : Json) : Except String Action :=
  match verifyIsObject element with
  | Except.error m => Except.error m
  | Except.ok members =>
      match getRequiredProperty element "register" with
      | Except.error m => Except.error m
      | Except.ok registerElement =>
          match parseHexByte registerElement with
          | Except.error m => Except.error m
          | Except.ok register =>
              match getRequiredProperty element "value" with
              | Except.error m => Except.error m
              | Except.ok valueElement =>
                  match parseHexByte valueElement with
                  | Except.error m => Except.error m
                  | Except.ok value =>
                      match parseOptionalProperty members "mask" parseHexByte with
                      | Except.error m => Except.error m
                      | Except.ok maskOpt =>
                          match verifyPropertyCount members
                              (2 + (if containsProperty members "mask" then 1 else 0)) with
                          | Except.error m => Except.error m
                          | Except.ok _ =>
                              Except.ok (Action.i2cWriteByte register value (maskOpt.getD 255))

/--
Modelled from the spec: the i2c_write_bytes action parser
(`register` hex byte, `values` hex byte array, optional `masks` hex byte
array that must have as many elements as `values`).
-/
def parseI2CWriteBytes (element : Json) : Except String Action :=
  match verifyIsObject element with
  | Except.error m => Except.error m
  | Except.ok members =>
      match getRequiredProperty element "register" with
      | Except.error m => Except.error m
      | Except.ok registerElement =>
          match parseHexByte registerElement with
          | Except.error m => Except.error m
          | Except.ok register =>
              match getRequiredProperty element "values" with
              | Except.error m => Except.error m
              | Except.ok valuesElement =>
                  match parseHexByteArray valuesElement with
                  | Except.error m => Except.error m
                  | Except.ok values =>
                      match parseOptionalProperty members "masks" parseHexByteArray with
                      | Except.error m => Except.error m
                      | Except.ok masksOpt =>
                          match masksOpt with
                          | some masks =>
                              if masks.length ≠ values.length then
                                Except.error "Invalid number of elements in masks"
                              else
                                match verifyPropertyCount members 3 with
                                | Except.error m => Except.error m
                                | Except.ok _ =>
                                    Except.ok (Action.i2cWriteBytes register values masks)
                          | none =>
                              match verifyPropertyCount members 2 with
                              | Except.error m => Except.error m
                              | Except.ok _ =>
                                  Except.ok (Action.i2cWriteBytes register values [])

/--
Modelled from the spec: the pmbus_write_vout_command action parser
(optional `volts` number, required `format` that must be `linear`,
optional `exponent` 8-bit signed integer, optional `is_verified`
boolean).
-/
def parsePMBusWriteVoutCommand (element : Json) : Except String Action :=
  match verifyIsObject element with
  | Except.error m => Except.error m
  | Except.ok members =>
      match parseOptionalProperty members "volts" parseDouble with
      | Except.error m => Except.error m
      | Except.ok volts =>
          match getRequiredProperty element "format" with
          | Except.error m => Except.error m
          | Except.ok formatElement =>
              match parseString formatElement false with
              | Except.error m => Except.error m
              | Except.ok formatString =>
                  if formatString ≠ "linear" then
                    Except.error ("Invalid format value: " ++ formatString)
                  else
                    match parseOptionalProperty members "exponent" parseInt8 with
                    | Except.error m => Except.error m
                    | Except.ok exponent =>
                        match parseOptionalProperty members "is_verified" parseBoolean with
                        | Except.error m => Except.error m
                        | Except.ok isVerifiedOpt =>
                            match verifyPropertyCount members
                                ((if containsProperty members "volts" then 1 else 0) + 1 +
                                 (if containsProperty members "exponent" then 1 else 0) +
                                 (if containsProperty members "is_verified" then 1 else 0)) with
                            | Except.error m => Except.error m
                            | Except.ok _ =>
                                Except.ok (Action.pmbusWriteVoutCommand volts
                                  VoutDataFormat.linear exponent (isVerifiedOpt.getD false))

/--
Modelled from the spec: the action parser.  It dispatches on exactly one
recognized action-type key: zero recognized keys fail with
`Required action type property missing`; the consumed-key count check
rejects a second action type or any unrecognized key with
`Element contains an invalid property`.  An optional `comments` property
is ignored.  `finishAction` is the shared consumed-key count tail.
-/
def finishAction (members : List (String × Json)) (result : Except String Action) :
    Except String Action :=
  match result with
  | Except.error m => Except.error m
  | Except.ok action =>
      match verifyPropertyCount members
          ((if containsProperty members "comments" then 1 else 0) + 1) with
      | Except.error m => Except.error m
      | Except.ok _ => Except.ok action

def parseAction (element : Json) : Except String Action :=
  match verifyIsObject element with
  | Except.error m => Except.error m
  | Except.ok members =>
      match getMemberProperty members "i2c_write_bit" with
      | some value => finishAction members (parseI2CWriteBit value)
      | none =>
        match getMemberProperty members "i2c_write_byte" with
        | some value => finishAction members (parseI2CWriteByte value)
        | none =>
          match getMemberProperty members "i2c_write_bytes" with
          | some value => finishAction members (parseI2CWriteBytes value)
          | none =>
            match getMemberProperty members "pmbus_write_vout_command" with
            | some value => finishAction members (parsePMBusWriteVoutCommand value)
            | none =>
              match getMemberProperty members "run_rule" with
              | some value => finishAction members (parseRunRule value)
              | none => Except.error "Required action type property missing"

/-- Modelled from the spec: the action array parser. -/
def parseActionArray (element : Json) : Except String (List Action) :=
  match verifyIsArray element with
  | Except.error m => Except.error m
  | Except.ok elements => parseJsonList parseAction elements

/-- Exact message of the rule_id/actions exclusivity failure. -/
def combinationMsg : String :=
  "Invalid property combination: Must contain either rule_id or actions"

/--
Modelled from the spec: configuration and sensor-monitoring objects
require exactly one of `rule_id` and `actions`; both present or neither
present fails with
`Invalid property combination: Must contain either rule_id or actions`.
A lone `rule_id` expands the referenced rule into a single run_rule
action.
-/
def parseRuleIDOrActionsProperty (element : Json) : Except String (List Action) :=
  match verifyIsObject element with
  | Except.error m => Except.error m
  | Except.ok members =>
      match getMemberProperty members "rule_id", getMemberProperty members "actions" with
      | none, some actionsElement => parseActionArray actionsElement
      | some ruleIDElement, none =>
          match parseString ruleIDElement false with
          | Except.error m => Except.error m
          | Except.ok ruleID => Except.ok [Action.runRule ruleID]
      | _, _ => Except.error combinationMsg

/--
Modelled from the spec: the configuration parser — an optional
`comments` property, an optional `volts` number, and exactly one of
`rule_id` / `actions`, followed by the consumed-key count check.
-/
def parseConfiguration (element : Json) : Except String Configuration :=
  match verifyIsObject element with
  | Except.error m => Except.error m
  | Except.ok members =>
      match parseRuleIDOrActionsProperty element with
      | Except.error m => Except.error m
      | Except.ok actions =>
          match parseOptionalProperty members "volts" parseDouble with
          | Except.error m => Except.error m
          | Except.ok volts =>
              match verifyPropertyCount members
                  ((if containsProperty members "comments" then 1 else 0) +
                   (if containsProperty members "volts" then 1 else 0) + 1) with
              | Except.error m => Except.error m
              | Except.ok _ => Except.ok { volts := volts, actions := actions }

/--
Modelled from the spec: the sensor-monitoring parser — an optional
`comments` property and exactly one of `rule_id` / `actions`, followed
by the consumed-key count check.
-/
def parseSensorMonitoring (element : Json) : Except String SensorMonitoring :=
  match verifyIsObject element with
  | Except.error m => Except.error m
  | Except.ok members =>
      match parseRuleIDOrActionsProperty element with
      | Except.error m => Except.error m
      | Except.ok actions =>
          match verifyPropertyCount members
              ((if containsProperty members "comments" then 1 else 0) + 1) with
          | Except.error m => Except.error m
          | Except.ok _ => Except.ok { actions := actions }

/-! ## Rail, device, chassis, rule and root parsers -/

/--
Modelled from the spec: the rail parser — an optional `comments`
property, a required non-empty `id`, an optional `configuration`, and an
optional `sensor_monitoring`.
-/
def parseRail (element : Json) : Except String Rail :=
  match verifyIsObject element with
  | Except.error m => Except.error m
  | Except.ok members =>
      match getRequiredProperty element "id" with
      | Except.error m => Except.error m
      | Except.ok idElement =>
          match parseString idElement false with
          | Except.error m => Except.error m
          | Except.ok railID =>
              match parseOptionalProperty members "configuration" parseConfiguration with
              | Except.error m => Except.error m
              | Except.ok configuration =>
                  match parseOptionalProperty members "sensor_monitoring" parseSensorMonitoring with
                  | Except.error m => Except.error m
                  | Except.ok sensorMonitoring =>
                      match verifyPropertyCount members
                          ((if containsProperty members "comments" then 1 else 0) + 1 +
                           (if containsProperty members "configuration" then 1 else 0) +
                           (if containsProperty members "sensor_monitoring" then 1 else 0)) with
                      | Except.error m => Except.error m
                      | Except.ok _ =>
                          Except.ok { id := railID, configuration := configuration,
                                      sensorMonitoring := sensorMonitoring }

/-- Modelled from the spec: the rail array parser. -/
def parseRailArray (element : Json) : Except String (List Rail) :=
  match verifyIsArray element with
  | Except.error m => Except.error m
  | Except.ok elements => parseJsonList parseRail elements

/--
Modelled from the spec: the i2c_interface parser — a required `bus`
integer and a required `address` hex string.
-/
def parseI2CInterface (element : Json) : Except String I2CInterfaceInfo :=
  match verifyIsObject element with
  | Except.error m => Except.error m
  | Except.ok members =>
      match getRequiredProperty element "bus" with
      | Except.error m => Except.error m
      | Except.ok busElement =>
          match parseUint8 busElement with
          | Except.error m => Except.error m
          | Except.ok bus =>
              match getRequiredProperty element "address" with
              | Except.error m => Except.error m
              | Except.ok addressElement =>
                  match parseHexByte addressElement with
                  | Except.error m => Except.error m
                  | Except.ok address =>
                      match verifyPropertyCount members 2 with
                      | Except.error m => Except.error m
                      | Except.ok _ => Except.ok { bus := bus, address := address }

/--
Modelled from the spec: the rails / configuration tail of the device
parser (split out of `parseDevice` to keep the match nesting
manageable): an optional non-empty `rails` array is rejected with
`Invalid rails property when is_regulator is false` on a non-regulator
device, then the optional `configuration` and the consumed-key count
check follow.
-/
def parseDeviceRest (members : List (String × Json)) (commentsCount : Nat) (deviceID : String)
    (isRegulator : Bool) (fru : String) (i2cInterface : I2CInterfaceInfo) :
    Except String Device :=
  match getMemberProperty members "rails" with
  | some railsElement =>
      match verifyIsArray railsElement with
      | Except.error m => Except.error m
      | Except.ok railElements =>
          if !isRegulator && !railElements.isEmpty then
            Except.error "Invalid rails property when is_regulator is false"
          else
            match parseJsonList parseRail railElements with
            | Except.error m => Except.error m
            | Except.ok rails =>
                match parseOptionalProperty members "configuration" parseConfiguration with
                | Except.error m => Except.error m
                | Except.ok configuration =>
                    match verifyPropertyCount members
                        (commentsCount + 4 + 1 +
                         (if containsProperty members "configuration" then 1 else 0)) with
                    | Except.error m => Except.error m
                    | Except.ok _ =>
                        Except.ok { id := deviceID, isRegulator := isRegulator, fru := fru,
                                    i2cInterface := i2cInterface,
                                    configuration := configuration, rails := rails }
  | none =>
      match parseOptionalProperty members "configuration" parseConfiguration with
      | Except.error m => Except.error m
      | Except.ok configuration =>
          match verifyPropertyCount members
              (commentsCount + 4 +
               (if containsProperty members "configuration" then 1 else 0)) with
          | Except.error m => Except.error m
          | Except.ok _ =>
              Except.ok { id := deviceID, isRegulator := isRegulator, fru := fru,
                          i2cInterface := i2cInterface,
                          configuration := configuration, rails := [] }

/--
Modelled from the spec: the device parser — optional `comments`,
required `id`, `is_regulator`, `fru` and `i2c_interface`, an optional
non-empty `rails` array that is rejected with
`Invalid rails property when is_regulator is false` on a non-regulator
device, and an optional `configuration`.
-/
def parseDevice (element : Json) : Except String Device :=
  match verifyIsObject element with
  | Except.error m => Except.error m
  | Except.ok members =>
      match getRequiredProperty element "id" with
      | Except.error m => Except.error m
      | Except.ok idElement =>
          match parseString idElement false with
          | Except.error m => Except.error m
          | Except.ok deviceID =>
              match getRequiredProperty element "is_regulator" with
              | Except.error m => Except.error m
              | Except.ok isRegulatorElement =>
                  match parseBoolean isRegulatorElement with
                  | Except.error m => Except.error m
                  | Except.ok isRegulator =>
                      match getRequiredProperty element "fru" with
                      | Except.error m => Except.error m
                      | Except.ok fruElement =>
                          match parseString fruElement false with
                          | Except.error m => Except.error m
                          | Except.ok fru =>
                              match getRequiredProperty element "i2c_interface" with
                              | Except.error m => Except.error m
                              | Except.ok i2cElement =>
                                  match parseI2CInterface i2cElement with
                                  | Except.error m => Except.error m
                                  | Except.ok i2cInterface =>
                                      parseDeviceRest members
                                        (if containsProperty members "comments" then 1 else 0)
                                        deviceID isRegulator fru i2cInterface

/-- Modelled from the spec: the device array parser. -/
def parseDeviceArray (element : Json) : Except String (List Device) :=
  match verifyIsArray element with
  | Except.error m => Except.error m
  | Except.ok elements => parseJsonList parseDevice elements

/--
Modelled from the spec: the chassis parser — optional `comments`, a
required `number` that must be a positive integer
(`Invalid chassis number: Must be > 0`), and an optional `devices`
array.
-/
def parseChassis (element : Json) : Except String Chassis :=
  match verifyIsObject element with
  | Except.error m => Except.error m
  | Except.ok members =>
      match getRequiredProperty element "number" with
      | Except.error m => Except.error m
      | Except.ok numberElement =>
          match parseUnsignedInteger numberElement with
          | Except.error m => Except.error m
          | Except.ok number =>
              if number < 1 then Except.error "Invalid chassis number: Must be > 0"
              else
                match parseOptionalProperty members "devices" parseDeviceArray with
                | Except.error m => Except.error m
                | Except.ok devicesOpt =>
                    match verifyPropertyCount members
                        ((if containsProperty members "comments" then 1 else 0) + 1 +
                         (if containsProperty members "devices" then 1 else 0)) with
                    | Except.error m => Except.error m
                    | Except.ok _ =>
                        Except.ok { number := number, devices := devicesOpt.getD [] }

/-- Modelled from the spec: the chassis array parser. -/
def parseChassisArray (element : Json) : Except String (List Chassis) :=
  match verifyIsArray element with
  | Except.error m => Except.error m
  | Except.ok elements => parseJsonList parseChassis elements

/--
Modelled from the spec: the rule parser — optional `comments`, a
required non-empty `id`, and a required `actions` array.
-/
def parseRule (element : Json) : Except String Rule :=
  match verifyIsObject element with
  | Except.error m => Except.error m
  | Except.ok members =>
      match getRequiredProperty element "id" with
      | Except.error m => Except.error m
      | Except.ok idElement =>
          match parseString idElement false with
          | Except.error m => Except.error m
          | Except.ok ruleID =>
              match getRequiredProperty element "actions" with
              | Except.error m => Except.error m
              | Except.ok actionsElement =>
                  match parseActionArray actionsElement with
                  | Except.error m => Except.error m
                  | Except.ok actions =>
                      match verifyPropertyCount members
                          ((if containsProperty members "comments" then 1 else 0) + 2) with
                      | Except.error m => Except.error m
                      | Except.ok _ => Except.ok { id := ruleID, actions := actions }

/-- Modelled from the spec: the rule array parser. -/
def parseRuleArray (element : Json) : Except String (List Rule) :=
  match verifyIsArray element with
  | Except.error m => Except.error m
  | Except.ok elements => parseJsonList parseRule elements

/--
Modelled from the spec: the root parser — optional `comments`, an
optional `rules` array, and a required `chassis` array, followed by the
consumed-key count check.
-/
def parseRoot (element : Json) : Except String (List Rule × List Chassis) :=
  match verifyIsObject element with
  | Except.error m => Except.error m
  | Except.ok members =>
      match parseOptionalProperty members "rules" parseRuleArray with
      | Except.error m => Except.error m
      | Except.ok rulesOpt =>
          match getRequiredProperty element "chassis" with
          | Except.error m => Except.error m
          | Except.ok chassisElement =>
              match parseChassisArray chassisElement with
              | Except.error m => Except.error m
              | Except.ok chassis =>
                  match verifyPropertyCount members
                      ((if containsProperty members "comments" then 1 else 0) + 1 +
                       (if containsProperty members "rules" then 1 else 0)) with
                  | Except.error m => Except.error m
                  | Except.ok _ => Except.ok (rulesOpt.getD [], chassis)

/--
Modelled from the spec: the top-level parse of an already-read
configuration document (file IO and JSON-syntax normalization happen
above this boundary and are not modelled); it delegates to the root
parser.
-/
def parse (document : Json) : Except String (List Rule × List Chassis) :=
  parseRoot document

/-! ## Claim C7: hex byte strings -/

/--
Shape of a hex byte string as the claim words it: exactly `0x` (the
lowercase prefix is mandatory) followed by one or two hexadecimal
digits of either case.
-/
def hexByteForm (s : String) : Bool :=
  match s.toList with
  | '0' :: 'x' :: digits =>
      decide (1 ≤ digits.length) && decide (digits.length ≤ 2) && digits.all isHexDigit
  | _ => false

theorem hexByteForm_eq_true_iff (s : String) :
    hexByteForm s = true ↔
      (s.toList.take 2 = ['0', 'x'] ∧ 1 ≤ (s.toList.drop 2).length ∧
        (s.toList.drop 2).length ≤ 2 ∧ (s.toList.drop 2).all isHexDigit = true) := by
  unfold hexByteForm
  rcases hcs : s.toList with _ | ⟨c1, _ | ⟨c2, ds⟩⟩
  · simp
  · simp
  · split
    · rename_i ds' heq
      obtain ⟨h1, h2, h3⟩ : c1 = '0' ∧ c2 = 'x' ∧ ds = ds' := by
        injection heq with e1 rest
        injection rest with e2 rest2
        exact ⟨e1, e2, rest2⟩
      subst h1; subst h2; subst h3
      simp [List.take, List.drop, and_assoc]
    · rename_i hnomatch
      have hne : ¬(c1 = '0' ∧ c2 = 'x') := by
        rintro ⟨e1, e2⟩
        exact hnomatch ds (by rw [e1, e2])
      simp only [List.take, List.drop, Bool.false_eq_true, false_iff]
      rintro ⟨htake, -⟩
      apply hne
      constructor
      · injection htake with e1 _
      · injection htake with _ rest
        injection rest with e2 _

theorem parseString_str_allowEmpty (s : String) :
    parseString (Json.str s) true = Except.ok s := by
  simp [parseString]

/--
Claim C7: `parseHexByte` succeeds on a JSON string exactly when it has
the form `0x` followed by one or two hexadecimal digits (the lowercase
`0x` mandatory, digits of either case), returning its numeric value; on
every other string it fails with the exact message
`Element is not hexadecimal string`.  In particular it accepts `0xFF`,
`0xff`, `0xf` and rejects `0xfff`, `0xAG`, `ff`, the empty string, `f`,
`0x` and `0XFF`.
-/
theorem parseHexByte_accepts_exactly_hex_bytes :
    (∀ s : String,
      (hexByteForm s = true →
        parseHexByte (Json.str s) = Except.ok (hexDigitsValue (s.toList.drop 2))) ∧
      (hexByteForm s = false →
        parseHexByte (Json.str s) = Except.error "Element is not hexadecimal string")) ∧
    parseHexByte (Json.str "0xFF") = Except.ok 255 ∧
    parseHexByte (Json.str "0xff") = Except.ok 255 ∧
    parseHexByte (Json.str "0xf") = Except.ok 15 ∧
    parseHexByte (Json.str "0xfff") = Except.error "Element is not hexadecimal string" ∧
    parseHexByte (Json.str "0xAG") = Except.error "Element is not hexadecimal string" ∧
    parseHexByte (Json.str "ff") = Except.error "Element is not hexadecimal string" ∧
    parseHexByte (Json.str "") = Except.error "Element is not hexadecimal string" ∧
    parseHexByte (Json.str "f") = Except.error "Element is not hexadecimal string" ∧
    parseHexByte (Json.str "0x") = Except.error "Element is not hexadecimal string" ∧
    parseHexByte (Json.str "0XFF") = Except.error "Element is not hexadecimal string" := by
  refine ⟨?_, rfl, rfl, rfl, rfl, rfl, rfl, rfl, rfl, rfl, rfl⟩
  intro s
  constructor
  · intro h
    rw [hexByteForm_eq_true_iff] at h
    unfold parseHexByte
    rw [parseString_str_allowEmpty]
    exact if_pos h
  · intro h
    have hnot : ¬ (s.toList.take 2 = ['0', 'x'] ∧ 1 ≤ (s.toList.drop 2).length ∧
        (s.toList.drop 2).length ≤ 2 ∧ (s.toList.drop 2).all isHexDigit = true) := by
      intro hc
      rw [← hexByteForm_eq_true_iff] at hc
      rw [h] at hc
      exact Bool.false_ne_true hc
    unfold parseHexByte
    rw [parseString_str_allowEmpty]
    exact if_neg hnot

/-- Witness for C7 at the concrete accepted input `0xff`. -/
theorem parseHexByte_accepts_exactly_hex_bytes_witness :
    hexByteForm "0xff" = true ∧
    parseHexByte (Json.str "0xff") = Except.ok (hexDigitsValue ("0xff".toList.drop 2)) :=
  ⟨by decide, (parseHexByte_accepts_exactly_hex_bytes.1 "0xff").1 (by decide)⟩

/-! ## Lemmas: only the rule_id/actions exclusivity check emits the combination message -/

theorem string_append_ne (pre s t : String)
    (h : t.data.take pre.data.length ≠ pre.data) : pre ++ s ≠ t := by
  intro he
  apply h
  rw [← he, String.data_append, List.take_left]

theorem requiredProperty_ne_comb (name : String) :
    "Required property missing: " ++ name ≠ combinationMsg :=
  string_append_ne _ _ _ (by decide)

theorem invalidFormat_ne_comb (formatString : String) :
    "Invalid format value: " ++ formatString ≠ combinationMsg :=
  string_append_ne _ _ _ (by decide)

theorem object_msg_ne_comb : "Element is not an object" ≠ combinationMsg := by decide

theorem array_msg_ne_comb : "Element is not an array" ≠ combinationMsg := by decide

theorem invalidProperty_msg_ne_comb : "Element contains an invalid property" ≠ combinationMsg := by
  decide

theorem string_msg_ne_comb : "Element is not a string" ≠ combinationMsg := by decide

theorem emptyString_msg_ne_comb : "Element contains an empty string" ≠ combinationMsg := by decide

theorem boolean_msg_ne_comb : "Element is not a boolean" ≠ combinationMsg := by decide

theorem number_msg_ne_comb : "Element is not a number" ≠ combinationMsg := by decide

theorem integer_msg_ne_comb : "Element is not an integer" ≠ combinationMsg := by decide

theorem int8_msg_ne_comb : "Element is not an 8-bit signed integer" ≠ combinationMsg := by decide

theorem uint8_msg_ne_comb : "Element is not an 8-bit unsigned integer" ≠ combinationMsg := by
  decide

theorem unsigned_msg_ne_comb : "Element is not an unsigned integer" ≠ combinationMsg := by decide

theorem bitPosition_msg_ne_comb : "Element is not a bit position" ≠ combinationMsg := by decide

theorem bitValue_msg_ne_comb : "Element is not a bit value" ≠ combinationMsg := by decide

theorem hex_msg_ne_comb : "Element is not hexadecimal string" ≠ combinationMsg := by decide

theorem actionType_msg_ne_comb : "Required action type property missing" ≠ combinationMsg := by
  decide

theorem masks_msg_ne_comb : "Invalid number of elements in masks" ≠ combinationMsg := by decide

theorem verifyIsObject_ne_comb (el : Json) :
    verifyIsObject el ≠ Except.error combinationMsg := by
  intro h
  unfold verifyIsObject at h
  split at h
  · exact Except.noConfusion h
  · injection h with h1; exact absurd h1 object_msg_ne_comb

theorem verifyIsArray_ne_comb (el : Json) :
    verifyIsArray el ≠ Except.error combinationMsg := by
  intro h
  unfold verifyIsArray at h
  split at h
  · exact Except.noConfusion h
  · injection h with h1; exact absurd h1 array_msg_ne_comb

theorem verifyPropertyCount_ne_comb (members : List (String × Json)) (count : Nat) :
    verifyPropertyCount members count ≠ Except.error combinationMsg := by
  intro h
  unfold verifyPropertyCount at h
  split at h
  · exact Except.noConfusion h
  · injection h with h1; exact absurd h1 invalidProperty_msg_ne_comb

theorem getRequiredProperty_ne_comb (el : Json) (name : String) :
    getRequiredProperty el name ≠ Except.error combinationMsg := by
  intro h
  unfold getRequiredProperty at h
  repeat' split at h
  all_goals first
    | exact Except.noConfusion h
    | (injection h with h1; exact absurd h1 (requiredProperty_ne_comb _))

theorem parseString_ne_comb (el : Json) (b : Bool) :
    parseString el b ≠ Except.error combinationMsg := by
  intro h
  unfold parseString at h
  repeat' split at h
  all_goals first
    | exact Except.noConfusion h
    | (injection h with h1; exact absurd h1 string_msg_ne_comb)
    | (injection h with h1; exact absurd h1 emptyString_msg_ne_comb)

theorem parseBoolean_ne_comb (el : Json) :
    parseBoolean el ≠ Except.error combinationMsg := by
  intro h
  unfold parseBoolean at h
  split at h
  · exact Except.noConfusion h
  · injection h with h1; exact absurd h1 boolean_msg_ne_comb

theorem parseDouble_ne_comb (el : Json) :
    parseDouble el ≠ Except.error combinationMsg := by
  intro h
  unfold parseDouble at h
  split at h
  · exact Except.noConfusion h
  · injection h with h1; exact absurd h1 number_msg_ne_comb

theorem parseInt8_ne_comb (el : Json) :
    parseInt8 el ≠ Except.error combinationMsg := by
  intro h
  unfold parseInt8 at h
  repeat' split at h
  all_goals first
    | exact Except.noConfusion h
    | (injection h with h1; exact absurd h1 integer_msg_ne_comb)
    | (injection h with h1; exact absurd h1 int8_msg_ne_comb)

theorem parseUint8_ne_comb (el : Json) :
    parseUint8 el ≠ Except.error combinationMsg := by
  intro h
  unfold parseUint8 at h
  repeat' split at h
  all_goals first
    | exact Except.noConfusion h
    | (injection h with h1; exact absurd h1 integer_msg_ne_comb)
    | (injection h with h1; exact absurd h1 uint8_msg_ne_comb)

theorem parseUnsignedInteger_ne_comb (el : Json) :
    parseUnsignedInteger el ≠ Except.error combinationMsg := by
  intro h
  unfold parseUnsignedInteger at h
  repeat' split at h
  all_goals first
    | exact Except.noConfusion h
    | (injection h with h1; exact absurd h1 unsigned_msg_ne_comb)

theorem parseBitPosition_ne_comb (el : Json) :
    parseBitPosition el ≠ Except.error combinationMsg := by
  intro h
  unfold parseBitPosition at h
  repeat' split at h
  all_goals first
    | exact Except.noConfusion h
    | (injection h with h1; exact absurd h1 integer_msg_ne_comb)
    | (injection h with h1; exact absurd h1 bitPosition_msg_ne_comb)

theorem parseBitValue_ne_comb (el : Json) :
    parseBitValue el ≠ Except.error combinationMsg := by
  intro h
  unfold parseBitValue at h
  repeat' split at h
  all_goals first
    | exact Except.noConfusion h
    | (injection h with h1; exact absurd h1 integer_msg_ne_comb)
    | (injection h with h1; exact absurd h1 bitValue_msg_ne_comb)

theorem parseHexByte_ne_comb (el : Json) :
    parseHexByte el ≠ Except.error combinationMsg := by
  intro h
  unfold parseHexByte at h
  repeat' split at h
  all_goals first
    | exact Except.noConfusion h
    | (injection h with h1; exact absurd h1 hex_msg_ne_comb)
    | (injection h with h1; subst h1; rename_i heq;
       exact absurd heq (parseString_ne_comb _ _))

theorem parseJsonList_ne_comb {α : Type} (f : Json → Except String α)
    (hf : ∀ v, f v ≠ Except.error combinationMsg) (es : List Json) :
    parseJsonList f es ≠ Except.error combinationMsg := by
  induction es with
  | nil => simp [parseJsonList]
  | cons e rest ih =>
      intro h
      unfold parseJsonList at h
      repeat' split at h
      all_goals first
        | exact Except.noConfusion h
        | (injection h with h1; subst h1; rename_i heq; exact absurd heq (hf _))
        | (injection h with h1; subst h1; rename_i heq; refine absurd ?_ ih; assumption)

theorem parseHexByteArray_ne_comb (el : Json) :
    parseHexByteArray el ≠ Except.error combinationMsg := by
  intro h
  unfold parseHexByteArray at h
  repeat' split at h
  all_goals first
    | exact absurd h (parseJsonList_ne_comb parseHexByte parseHexByte_ne_comb _)
    | (injection h with h1; subst h1; rename_i heq;
       exact absurd heq (verifyIsArray_ne_comb _))

theorem parseOptionalProperty_ne_comb {α : Type} (members : List (String × Json)) (name : String)
    (f : Json → Except String α) (hf : ∀ v, f v ≠ Except.error combinationMsg) :
    parseOptionalProperty members name f ≠ Except.error combinationMsg := by
  intro h
  unfold parseOptionalProperty at h
  repeat' split at h
  all_goals first
    | exact Except.noConfusion h
    | (injection h with h1; subst h1; rename_i heq; exact absurd heq (hf _))

theorem parseRunRule_ne_comb (el : Json) :
    parseRunRule el ≠ Except.error combinationMsg := by
  intro h
  unfold parseRunRule at h
  repeat' split at h
  all_goals first
    | exact Except.noConfusion h
    | (injection h with h1; subst h1; rename_i heq;
       exact absurd heq (parseString_ne_comb _ _))

theorem parseI2CWriteBit_ne_comb (el : Json) :
    parseI2CWriteBit el ≠ Except.error combinationMsg := by
  intro h
  unfold parseI2CWriteBit at h
  repeat' split at h
  all_goals first
    | exact Except.noConfusion h
    | (injection h with h1; subst h1; rename_i heq;
       first
        | (exact absurd heq (verifyIsObject_ne_comb _))
        | (exact absurd heq (getRequiredProperty_ne_comb _ _))
        | (exact absurd heq (parseHexByte_ne_comb _))
        | (exact absurd heq (parseBitPosition_ne_comb _))
        | (exact absurd heq (parseBitValue_ne_comb _))
        | (exact absurd heq (verifyPropertyCount_ne_comb _ _)))

theorem parseI2CWriteByte_ne_comb (el : Json) :
    parseI2CWriteByte el ≠ Except.error combinationMsg := by
  intro h
  unfold parseI2CWriteByte at h
  repeat' split at h
  all_goals first
    | exact Except.noConfusion h
    | (injection h with h1; subst h1; rename_i heq;
       first
        | (exact absurd heq (verifyIsObject_ne_comb _))
        | (exact absurd heq (getRequiredProperty_ne_comb _ _))
        | (exact absurd heq (parseHexByte_ne_comb _))
        | (exact absurd heq (parseOptionalProperty_ne_comb _ _ parseHexByte parseHexByte_ne_comb))
        | (exact absurd heq (verifyPropertyCount_ne_comb _ _)))

theorem parseI2CWriteBytes_ne_comb (el : Json) :
    parseI2CWriteBytes el ≠ Except.error combinationMsg := by
  intro h
  unfold parseI2CWriteBytes at h
  repeat' split at h
  all_goals first
    | exact Except.noConfusion h
    | (injection h with h1; exact absurd h1 masks_msg_ne_comb)
    | (injection h with h1; subst h1; rename_i heq;
       first
        | (exact absurd heq (verifyIsObject_ne_comb _))
        | (exact absurd heq (getRequiredProperty_ne_comb _ _))
        | (exact absurd heq (parseHexByte_ne_comb _))
        | (exact absurd heq (parseHexByteArray_ne_comb _))
        | (exact absurd heq (parseOptionalProperty_ne_comb _ _ parseHexByteArray parseHexByteArray_ne_comb))
        | (exact absurd heq (verifyPropertyCount_ne_comb _ _)))

theorem parsePMBusWriteVoutCommand_ne_comb (el : Json) :
    parsePMBusWriteVoutCommand el ≠ Except.error combinationMsg := by
  intro h
  unfold parsePMBusWriteVoutCommand at h
  repeat' split at h
  all_goals first
    | exact Except.noConfusion h
    | (injection h with h1; exact absurd h1 (invalidFormat_ne_comb _))
    | (injection h with h1; subst h1; rename_i heq;
       first
        | (exact absurd heq (verifyIsObject_ne_comb _))
        | (exact absurd heq (getRequiredProperty_ne_comb _ _))
        | (exact absurd heq (parseString_ne_comb _ _))
        | (exact absurd heq (parseOptionalProperty_ne_comb _ _ parseDouble parseDouble_ne_comb))
        | (exact absurd heq (parseOptionalProperty_ne_comb _ _ parseInt8 parseInt8_ne_comb))
        | (exact absurd heq (parseOptionalProperty_ne_comb _ _ parseBoolean parseBoolean_ne_comb))
        | (exact absurd heq (verifyPropertyCount_ne_comb _ _)))

theorem finishAction_ne_comb (members : List (String × Json)) (result : Except String Action)
    (hres : result ≠ Except.error combinationMsg) :
    finishAction members result ≠ Except.error combinationMsg := by
  intro h
  unfold finishAction at h
  repeat' split at h
  all_goals first
    | exact Except.noConfusion h
    | exact absurd h hres
    | (injection h with h1; subst h1; rename_i heq;
       first
        | exact absurd heq hres
        | exact absurd heq (verifyPropertyCount_ne_comb _ _))

theorem parseAction_ne_comb (el : Json) :
    parseAction el ≠ Except.error combinationMsg := by
  intro h
  unfold parseAction at h
  repeat' split at h
  all_goals first
    | exact Except.noConfusion h
    | (injection h with h1; exact absurd h1 actionType_msg_ne_comb)
    | exact absurd h (finishAction_ne_comb _ _ (parseI2CWriteBit_ne_comb _))
    | exact absurd h (finishAction_ne_comb _ _ (parseI2CWriteByte_ne_comb _))
    | exact absurd h (finishAction_ne_comb _ _ (parseI2CWriteBytes_ne_comb _))
    | exact absurd h (finishAction_ne_comb _ _ (parsePMBusWriteVoutCommand_ne_comb _))
    | exact absurd h (finishAction_ne_comb _ _ (parseRunRule_ne_comb _))
    | (injection h with h1; subst h1; rename_i heq;
       exact absurd heq (verifyIsObject_ne_comb _))

theorem parseActionArray_ne_comb (el : Json) :
    parseActionArray el ≠ Except.error combinationMsg := by
  intro h
  unfold parseActionArray at h
  repeat' split at h
  all_goals first
    | exact absurd h (parseJsonList_ne_comb parseAction parseAction_ne_comb _)
    | (injection h with h1; subst h1; rename_i heq;
       exact absurd heq (verifyIsArray_ne_comb _))

/-! ## Claim C5: rule_id / actions exclusivity -/

theorem ruleIDOrActions_comb_iff (ms : List (String × Json)) :
    parseRuleIDOrActionsProperty (Json.obj ms) = Except.error combinationMsg ↔
      containsProperty ms "rule_id" = containsProperty ms "actions" := by
  unfold parseRuleIDOrActionsProperty
  simp only [verifyIsObject]
  cases hr : getMemberProperty ms "rule_id" with
  | none =>
      cases ha : getMemberProperty ms "actions" with
      | none => simp [containsProperty, hr, ha]
      | some actionsElement =>
          simp only [containsProperty, hr, ha, Option.isSome_none, Option.isSome_some]
          constructor
          · intro hcontra; exact absurd hcontra (parseActionArray_ne_comb _)
          · intro hfb; exact Bool.noConfusion hfb
  | some ruleIDElement =>
      cases ha : getMemberProperty ms "actions" with
      | none =>
          simp only [containsProperty, hr, ha, Option.isSome_none, Option.isSome_some]
          constructor
          · intro hcontra
            cases hps : parseString ruleIDElement false with
            | error m =>
                rw [hps] at hcontra
                injection hcontra with h1
                subst h1
                exact absurd hps (parseString_ne_comb _ _)
            | ok rid => rw [hps] at hcontra; exact Except.noConfusion hcontra
          · intro htf; exact Bool.noConfusion htf
      | some actionsElement =>
          simp [containsProperty, hr, ha]

theorem parseConfiguration_comb_iff (ms : List (String × Json)) :
    parseConfiguration (Json.obj ms) = Except.error combinationMsg ↔
      parseRuleIDOrActionsProperty (Json.obj ms) = Except.error combinationMsg := by
  constructor
  · intro h
    unfold parseConfiguration at h
    repeat' split at h
    all_goals first
      | exact Except.noConfusion h
      | (injection h with h1; subst h1; rename_i heq;
         first
          | exact heq
          | exact absurd heq (verifyIsObject_ne_comb _)
          | exact absurd heq (parseOptionalProperty_ne_comb _ _ parseDouble parseDouble_ne_comb)
          | exact absurd heq (verifyPropertyCount_ne_comb _ _))
  · intro h
    unfold parseConfiguration
    simp [verifyIsObject, h]

theorem parseSensorMonitoring_comb_iff (ms : List (String × Json)) :
    parseSensorMonitoring (Json.obj ms) = Except.error combinationMsg ↔
      parseRuleIDOrActionsProperty (Json.obj ms) = Except.error combinationMsg := by
  constructor
  · intro h
    unfold parseSensorMonitoring at h
    repeat' split at h
    all_goals first
      | exact Except.noConfusion h
      | (injection h with h1; subst h1; rename_i heq;
         first
          | exact heq
          | exact absurd heq (verifyIsObject_ne_comb _)
          | exact absurd heq (verifyPropertyCount_ne_comb _ _))
  · intro h
    unfold parseSensorMonitoring
    simp [verifyIsObject, h]

/--
Claim C5: for every JSON object given to `parseConfiguration`,
`parseSensorMonitoring` or `parseRuleIDOrActionsProperty`, the parse
fails with the exact message
`Invalid property combination: Must contain either rule_id or actions`
if and only if the object contains both the `rule_id` and `actions`
properties or contains neither; when exactly one is present and its
value is valid, the exclusivity check succeeds, a lone `rule_id` yielding
an action list of exactly one action.
-/
theorem exactly_one_of_ruleID_actions (ms : List (String × Json)) :
    (parseRuleIDOrActionsProperty (Json.obj ms) = Except.error combinationMsg ↔
        containsProperty ms "rule_id" = containsProperty ms "actions") ∧
    (parseConfiguration (Json.obj ms) = Except.error combinationMsg ↔
        containsProperty ms "rule_id" = containsProperty ms "actions") ∧
    (parseSensorMonitoring (Json.obj ms) = Except.error combinationMsg ↔
        containsProperty ms "rule_id" = containsProperty ms "actions") ∧
    (∀ ridEl rid, getMemberProperty ms "rule_id" = some ridEl →
        getMemberProperty ms "actions" = none →
        parseString ridEl false = Except.ok rid →
        parseRuleIDOrActionsProperty (Json.obj ms) = Except.ok [Action.runRule rid]) ∧
    (∀ actsEl acts, getMemberProperty ms "rule_id" = none →
        getMemberProperty ms "actions" = some actsEl →
        parseActionArray actsEl = Except.ok acts →
        parseRuleIDOrActionsProperty (Json.obj ms) = Except.ok acts) := by
  refine ⟨ruleIDOrActions_comb_iff ms,
    (parseConfiguration_comb_iff ms).trans (ruleIDOrActions_comb_iff ms),
    (parseSensorMonitoring_comb_iff ms).trans (ruleIDOrActions_comb_iff ms), ?_, ?_⟩
  · intro ridEl rid hr ha hps
    unfold parseRuleIDOrActionsProperty
    simp [verifyIsObject, hr, ha, hps]
  · intro actsEl acts hr ha hacts
    unfold parseRuleIDOrActionsProperty
    simp [verifyIsObject, hr, ha, hacts]

/--
Witness for C5: a lone valid `rule_id` parses to exactly one action,
and an object with neither property fails with the combination message.
-/
theorem exactly_one_of_ruleID_actions_witness :
    parseRuleIDOrActionsProperty (Json.obj [("rule_id", Json.str "set_voltage_rule")])
      = Except.ok [Action.runRule "set_voltage_rule"] ∧
    parseConfiguration (Json.obj [("volts", Json.num 1)])
      = Except.error combinationMsg :=
  ⟨(exactly_one_of_ruleID_actions [("rule_id", Json.str "set_voltage_rule")]).2.2.2.1
      (Json.str "set_voltage_rule") "set_voltage_rule" rfl rfl rfl,
   (exactly_one_of_ruleID_actions [("volts", Json.num 1)]).2.1.mpr rfl⟩

/-! ## Claim C8: non-regulator devices reject rails -/

/--
Claim C8: for every device JSON object whose required properties parse
successfully, whose `is_regulator` property is `false`, and whose
`rails` property is a non-empty array, `parseDevice` fails with the
exact message `Invalid rails property when is_regulator is false`.
-/
theorem parseDevice_rejects_rails_on_nonregulator
    (ms : List (String × Json)) (idEl fruEl i2cEl : Json)
    (deviceID fru : String) (i2c : I2CInterfaceInfo) (railElements : List Json)
    (hid : getMemberProperty ms "id" = some idEl)
    (hidOk : parseString idEl false = Except.ok deviceID)
    (hreg : getMemberProperty ms "is_regulator" = some (Json.boolean false))
    (hfru : getMemberProperty ms "fru" = some fruEl)
    (hfruOk : parseString fruEl false = Except.ok fru)
    (hi2c : getMemberProperty ms "i2c_interface" = some i2cEl)
    (hi2cOk : parseI2CInterface i2cEl = Except.ok i2c)
    (hrails : getMemberProperty ms "rails" = some (Json.arr railElements))
    (hne : railElements ≠ []) :
    parseDevice (Json.obj ms)
      = Except.error "Invalid rails property when is_regulator is false" := by
  have hgid : getRequiredProperty (Json.obj ms) "id" = Except.ok idEl := by
    simp [getRequiredProperty, hid]
  have hgreg : getRequiredProperty (Json.obj ms) "is_regulator"
      = Except.ok (Json.boolean false) := by
    simp [getRequiredProperty, hreg]
  have hgfru : getRequiredProperty (Json.obj ms) "fru" = Except.ok fruEl := by
    simp [getRequiredProperty, hfru]
  have hgi2c : getRequiredProperty (Json.obj ms) "i2c_interface" = Except.ok i2cEl := by
    simp [getRequiredProperty, hi2c]
  have hemp : railElements.isEmpty = false := by
    cases railElements with
    | nil => exact absurd rfl hne
    | cons a l => rfl
  unfold parseDevice
  simp only [verifyIsObject, hgid, hidOk, hgreg, parseBoolean, hgfru, hfruOk, hgi2c, hi2cOk]
  unfold parseDeviceRest
  rw [hrails]
  simp [verifyIsArray, hemp]

/-- Concrete non-regulator device with rails, as in the repository's test. -/
def badDeviceMembers : List (String × Json) :=
  [("id", Json.str "vdd_regulator"),
   ("is_regulator", Json.boolean false),
   ("fru", Json.str "/system/chassis/motherboard/regulator2"),
   ("i2c_interface", Json.obj [("bus", Json.num 1), ("address", Json.str "0x70")]),
   ("configuration", Json.obj [("rule_id", Json.str "configure_ir35221_rule")]),
   ("rails", Json.arr [Json.obj [("id", Json.str "vdd")]])]

/-- Witness for C8 at the concrete device object of the repository's test. -/
theorem parseDevice_rejects_rails_on_nonregulator_witness :
    getMemberProperty badDeviceMembers "is_regulator" = some (Json.boolean false) ∧
    getMemberProperty badDeviceMembers "rails"
      = some (Json.arr [Json.obj [("id", Json.str "vdd")]]) ∧
    parseDevice (Json.obj badDeviceMembers)
      = Except.error "Invalid rails property when is_regulator is false" :=
  ⟨rfl, rfl,
   parseDevice_rejects_rails_on_nonregulator badDeviceMembers
     (Json.str "vdd_regulator") (Json.str "/system/chassis/motherboard/regulator2")
     (Json.obj [("bus", Json.num 1), ("address", Json.str "0x70")])
     "vdd_regulator" "/system/chassis/motherboard/regulator2"
     { bus := 1, address := 112 } [Json.obj [("id", Json.str "vdd")]]
     rfl rfl rfl rfl rfl rfl rfl rfl (by simp)⟩

/-! ## Claim C9: top-level parse preserves counts, order, ids and numbers -/

theorem parseJsonList_ok_length {α : Type} (f : Json → Except String α)
    (es : List Json) (as : List α) (h : parseJsonList f es = Except.ok as) :
    as.length = es.length := by
  induction es generalizing as with
  | nil =>
      unfold parseJsonList at h
      injection h with h1
      subst h1
      rfl
  | cons e rest ih =>
      unfold parseJsonList at h
      cases hf : f e with
      | error m => rw [hf] at h; exact Except.noConfusion h
      | ok a =>
          rw [hf] at h
          dsimp only at h
          cases hr : parseJsonList f rest with
          | error m => rw [hr] at h; exact Except.noConfusion h
          | ok tail =>
              rw [hr] at h
              dsimp only at h
              injection h with h1
              subst h1
              simp [ih tail hr]

theorem parseJsonList_ok_get {α : Type} (f : Json → Except String α)
    (es : List Json) (as : List α) (h : parseJsonList f es = Except.ok as)
    (i : Nat) (hi : i < es.length) (hi' : i < as.length) :
    f (es.get ⟨i, hi⟩) = Except.ok (as.get ⟨i, hi'⟩) := by
  induction es generalizing as i with
  | nil => exact absurd hi (Nat.not_lt_zero i)
  | cons e rest ih =>
      unfold parseJsonList at h
      cases hf : f e with
      | error m => rw [hf] at h; exact Except.noConfusion h
      | ok a =>
          rw [hf] at h
          dsimp only at h
          cases hr : parseJsonList f rest with
          | error m => rw [hr] at h; exact Except.noConfusion h
          | ok tail =>
              rw [hr] at h
              dsimp only at h
              injection h with h1
              subst h1
              cases i with
              | zero => simpa using hf
              | succ n =>
                  exact ih tail hr n (Nat.lt_of_succ_lt_succ hi) (Nat.lt_of_succ_lt_succ hi')

theorem parseString_ok_str (el : Json) (b : Bool) (s : String)
    (h : parseString el b = Except.ok s) : el = Json.str s := by
  cases el with
  | str v =>
      simp only [parseString] at h
      split at h
      · exact Except.noConfusion h
      · injection h with h1; subst h1; rfl
  | null => exact Except.noConfusion h
  | boolean b' => exact Except.noConfusion h
  | num v => exact Except.noConfusion h
  | arr es => exact Except.noConfusion h
  | obj mso => exact Except.noConfusion h

theorem parseUnsignedInteger_ok (el : Json) (n : Nat)
    (h : parseUnsignedInteger el = Except.ok n) : el = Json.num (n : Rat) := by
  cases el with
  | num v =>
      simp only [parseUnsignedInteger] at h
      split at h
      · rename_i hcond
        injection h with h1
        obtain ⟨hden, hpos⟩ := hcond
        have hnum : v.num = (n : Int) := by
          rw [← h1]
          exact (Int.toNat_of_nonneg hpos).symm
        have : v = (n : Rat) := by
          refine Rat.ext ?_ ?_
          · rw [Rat.num_natCast]; exact hnum
          · rw [Rat.den_natCast]; exact hden
        rw [this]
      · exact Except.noConfusion h
  | null => exact Except.noConfusion h
  | boolean b' => exact Except.noConfusion h
  | str v => exact Except.noConfusion h
  | arr es => exact Except.noConfusion h
  | obj mso => exact Except.noConfusion h

theorem parseRule_ok_id (el : Json) (r : Rule) (h : parseRule el = Except.ok r) :
    getRequiredProperty el "id" = Except.ok (Json.str r.id) := by
  unfold parseRule at h
  cases ho : verifyIsObject el with
  | error m => rw [ho] at h; exact Except.noConfusion h
  | ok members =>
      rw [ho] at h
      dsimp only at h
      cases hid : getRequiredProperty el "id" with
      | error m => rw [hid] at h; exact Except.noConfusion h
      | ok idEl =>
          rw [hid] at h
          dsimp only at h
          cases hps : parseString idEl false with
          | error m => rw [hps] at h; exact Except.noConfusion h
          | ok rid =>
              rw [hps] at h
              dsimp only at h
              cases hac : getRequiredProperty el "actions" with
              | error m => rw [hac] at h; exact Except.noConfusion h
              | ok actsEl =>
                  rw [hac] at h
                  dsimp only at h
                  cases haa : parseActionArray actsEl with
                  | error m => rw [haa] at h; exact Except.noConfusion h
                  | ok actions =>
                      rw [haa] at h
                      dsimp only at h
                      cases hvc : verifyPropertyCount members
                          ((if containsProperty members "comments" then 1 else 0) + 2) with
                      | error m => rw [hvc] at h; exact Except.noConfusion h
                      | ok u =>
                          rw [hvc] at h
                          dsimp only at h
                          injection h with h1
                          rw [parseString_ok_str idEl false rid hps, ← h1]

theorem parseChassis_ok_number (el : Json) (c : Chassis) (h : parseChassis el = Except.ok c) :
    getRequiredProperty el "number" = Except.ok (Json.num (c.number : Rat)) := by
  unfold parseChassis at h
  cases ho : verifyIsObject el with
  | error m => rw [ho] at h; exact Except.noConfusion h
  | ok members =>
      rw [ho] at h
      dsimp only at h
      cases hnum : getRequiredProperty el "number" with
      | error m => rw [hnum] at h; exact Except.noConfusion h
      | ok numberElement =>
          rw [hnum] at h
          dsimp only at h
          cases hui : parseUnsignedInteger numberElement with
          | error m => rw [hui] at h; exact Except.noConfusion h
          | ok number =>
              rw [hui] at h
              dsimp only at h
              by_cases hlt : number < 1
              · rw [if_pos hlt] at h; exact Except.noConfusion h
              · rw [if_neg hlt] at h
                cases hdev : parseOptionalProperty members "devices" parseDeviceArray with
                | error m => rw [hdev] at h; exact Except.noConfusion h
                | ok devicesOpt =>
                    rw [hdev] at h
                    dsimp only at h
                    cases hvc : verifyPropertyCount members
                        ((if containsProperty members "comments" then 1 else 0) + 1 +
                         (if containsProperty members "devices" then 1 else 0)) with
                    | error m => rw [hvc] at h; exact Except.noConfusion h
                    | ok u =>
                        rw [hvc] at h
                        dsimp only at h
                        injection h with h1
                        rw [parseUnsignedInteger_ok numberElement number hui, ← h1]

/--
Claim C9: a top-level parse of a configuration document containing a
`rules` array and a `chassis` array produces exactly as many rules and
chassis as the document contains, in the document's order, with each
parsed rule's id and each parsed chassis's number equal to the
corresponding input entry's `id` / `number` property.
-/
theorem parse_preserves_rules_and_chassis
    (ms : List (String × Json)) (ruleElements chassisElements : List Json)
    (rules : List Rule) (chassis : List Chassis)
    (hrules : getMemberProperty ms "rules" = some (Json.arr ruleElements))
    (hchassis : getMemberProperty ms "chassis" = some (Json.arr chassisElements))
    (hok : parse (Json.obj ms) = Except.ok (rules, chassis)) :
    rules.length = ruleElements.length ∧
    chassis.length = chassisElements.length ∧
    (∀ i (hi : i < ruleElements.length) (hi' : i < rules.length),
        getRequiredProperty (ruleElements.get ⟨i, hi⟩) "id"
          = Except.ok (Json.str ((rules.get ⟨i, hi'⟩).id))) ∧
    (∀ i (hi : i < chassisElements.length) (hi' : i < chassis.length),
        getRequiredProperty (chassisElements.get ⟨i, hi⟩) "number"
          = Except.ok (Json.num (((chassis.get ⟨i, hi'⟩).number : Nat) : Rat))) := by
  unfold parse parseRoot at hok
  simp only [verifyIsObject] at hok
  cases hjr : parseJsonList parseRule ruleElements with
  | error m =>
      have hopt : parseOptionalProperty ms "rules" parseRuleArray = Except.error m := by
        unfold parseOptionalProperty
        rw [hrules]
        unfold parseRuleArray
        simp [verifyIsArray, hjr]
      rw [hopt] at hok
      dsimp only at hok
      exact Except.noConfusion hok
  | ok rs =>
      have hopt : parseOptionalProperty ms "rules" parseRuleArray = Except.ok (some rs) := by
        unfold parseOptionalProperty
        rw [hrules]
        unfold parseRuleArray
        simp [verifyIsArray, hjr]
      rw [hopt] at hok
      dsimp only at hok
      have hgch : getRequiredProperty (Json.obj ms) "chassis"
          = Except.ok (Json.arr chassisElements) := by
        simp [getRequiredProperty, hchassis]
      rw [hgch] at hok
      dsimp only at hok
      cases hjc : parseJsonList parseChassis chassisElements with
      | error m =>
          have hca : parseChassisArray (Json.arr chassisElements) = Except.error m := by
            unfold parseChassisArray
            simp [verifyIsArray, hjc]
          rw [hca] at hok
          dsimp only at hok
          exact Except.noConfusion hok
      | ok cs =>
          have hca : parseChassisArray (Json.arr chassisElements) = Except.ok cs := by
            unfold parseChassisArray
            simp [verifyIsArray, hjc]
          rw [hca] at hok
          dsimp only at hok
          cases hvc : verifyPropertyCount ms
              ((if containsProperty ms "comments" then 1 else 0) + 1 +
               (if containsProperty ms "rules" then 1 else 0)) with
          | error m => rw [hvc] at hok; exact Except.noConfusion hok
          | ok u =>
              rw [hvc] at hok
              dsimp only at hok
              injection hok with h1
              injection h1 with h2 h3
              have h2' : rs = rules := h2
              subst h2'
              subst h3
              refine ⟨parseJsonList_ok_length _ _ _ hjr,
                parseJsonList_ok_length _ _ _ hjc, ?_, ?_⟩
              · intro i hi hi'
                exact parseRule_ok_id _ _ (parseJsonList_ok_get parseRule ruleElements rs
                  hjr i hi hi')
              · intro i hi hi'
                exact parseChassis_ok_number _ _ (parseJsonList_ok_get parseChassis
                  chassisElements cs hjc i hi hi')

/-- Members of the end-to-end example document, one rule and three chassis. -/
def exampleRuleElements : List Json :=
  [Json.obj
    [("id", Json.str "set_voltage_rule1"),
     ("actions", Json.arr
        [Json.obj
          [("pmbus_write_vout_command",
            Json.obj [("volts", Json.num (103 / 100)), ("format", Json.str "linear")])]])]]

/-- Chassis elements of the end-to-end example document, numbered 1..3. -/
def exampleChassisElements : List Json :=
  [Json.obj [("number", Json.num 1)],
   Json.obj [("number", Json.num 2)],
   Json.obj [("number", Json.num 3)]]

/-- Members of the end-to-end example document. -/
def exampleMembers : List (String × Json) :=
  [("rules", Json.arr exampleRuleElements),
   ("chassis", Json.arr exampleChassisElements)]

/-- Expected parsed rules of the example document. -/
def exampleRules : List Rule :=
  [{ id := "set_voltage_rule1",
     actions := [Action.pmbusWriteVoutCommand (some (103 / 100)) VoutDataFormat.linear
        none false] }]

/-- Expected parsed chassis of the example document. -/
def exampleChassis : List Chassis :=
  [{ number := 1, devices := [] },
   { number := 2, devices := [] },
   { number := 3, devices := [] }]

/--
Witness for C9: the example document with one rule `set_voltage_rule1`
and three chassis numbered 1..3 parses to exactly 1 rule and 3 chassis
with matching ids and numbers, in input order.
-/
theorem parse_preserves_rules_and_chassis_witness :
    parse (Json.obj exampleMembers) = Except.ok (exampleRules, exampleChassis) ∧
    exampleRules.length = 1 ∧
    exampleChassis.length = 3 ∧
    exampleRules.map Rule.id = ["set_voltage_rule1"] ∧
    exampleChassis.map Chassis.number = [1, 2, 3] := by
  have h := parse_preserves_rules_and_chassis exampleMembers exampleRuleElements
    exampleChassisElements exampleRules exampleChassis rfl rfl rfl
  refine ⟨rfl, ?_, ?_, rfl, rfl⟩
  · rw [h.1]; rfl
  · rw [h.2.1]; rfl

/-- Witness for C3 at a concrete three-level exception chain. -/
theorem getMessages_getExceptions_innermost_first_witness :
    getMessages (CppException.nestedErr "outer" (CppException.nestedErr "middle"
        (CppException.simple "inner")))
      = ["inner", "middle", "outer"] ∧
    getMessages (CppException.nestedErr "outer" (CppException.nestedErr "middle"
        (CppException.simple "inner")))
      = (exceptionChain (CppException.nestedErr "outer" (CppException.nestedErr "middle"
          (CppException.simple "inner")))).map CppException.what :=
  ⟨rfl, (getMessages_getExceptions_innermost_first (CppException.nestedErr "outer"
    (CppException.nestedErr "middle" (CppException.simple "inner")))).1⟩

/-- Witness for C10 at a concrete registry, device id and services. -/
theorem make_initial_state_witness :
    (ActionEnvironment.make sampleIDMap "regulator1" sampleServices).getRuleDepth = 0 ∧
    (ActionEnvironment.make sampleIDMap "regulator1" sampleServices).getPhaseFaults = [] ∧
    (ActionEnvironment.make sampleIDMap "regulator1" sampleServices).getAdditionalErrorData
      = [] ∧
    (ActionEnvironment.make sampleIDMap "regulator1" sampleServices).getVolts = none ∧
    (ActionEnvironment.make sampleIDMap "regulator1" sampleServices).getDeviceID
      = "regulator1" :=
  make_initial_state sampleIDMap "regulator1" sampleServices

end Regulators
